import Mathlib

/-!
# Verification of the deployment state reconciler

A shallow embedding, in Lean 4, of the deployment-status reconciliation code
of this repository:

* `platform/utils/command.py` and `platform/deployment/utils/command.py`
  (`run_command`),
* `platform/backend/app/services/deployment_init.py`
  (`get_deployment_status`, `get_enhanced_deployment_status`,
  `initialize_deployments`),
* `platform/backend/app/services/deployment_service.py`
  (`create_deployment`, `get_deployment_by_name`).

The Python code is driven by the outputs of external subprocesses
(`kubectl`, `helm`, `curl`) and by JSON parsing of their stdout.  Each
subprocess invocation is embedded as an explicit environment field whose type
records exactly the outcomes the Python code can observe: a non-zero exit
code, an empty stdout, a stdout that fails JSON decoding, or a successfully
parsed value of the expected shape.  Exceptions in the Python code are
embedded as explicit control flow (`Except`, or dedicated error branches),
so every embedded function is total: a value returned by the Lean function
corresponds to a Python return with no exception escaping to the caller.
-/

namespace VllmPlatform

/-! ## String helpers

Python's `sub in s` substring test, `s.startswith(p)` and `s.lower()`,
embedded over `List Char` so they reduce well. -/

/-- `isPrefixOfL p s` : the character list `p` is a prefix of `s`
(Python `s.startswith(p)` on the underlying characters). -/
def isPrefixOfL : List Char → List Char → Bool
  | [], _ => true
  | _ :: _, [] => false
  | a :: as, b :: bs => a = b && isPrefixOfL as bs

/-- `containsL p s` : the character list `p` occurs contiguously in `s`
(Python `p in s` on the underlying characters). -/
def containsL (pat : List Char) : List Char → Bool
  | [] => isPrefixOfL pat []
  | c :: rest => isPrefixOfL pat (c :: rest) || containsL pat rest

/-- Python's substring test `pat in s`. -/
def strContains (s pat : String) : Bool :=
  containsL pat.data s.data

/-- Python's `s.startswith(pat)`. -/
def strStartsWith (s pat : String) : Bool :=
  isPrefixOfL pat.data s.data

/-- Python's `s.lower()` (ASCII lowering, as used on pod names and statuses). -/
def strLower (s : String) : String :=
  ⟨s.data.map Char.toLower⟩

/-! ## Command executor (`run_command`)

`platform/utils/command.py` and `platform/deployment/utils/command.py`.
`subprocess.run` is embedded by passing in the `CompletedProcess` the
operating system would produce for the command; `CalledProcessError` is the
exception `subprocess.run(check=True)` raises on a non-zero exit code. -/

/-- The result of a finished subprocess: `returncode`, `stdout`, `stderr`
(Python `subprocess.CompletedProcess`). -/
structure CompletedProcess where
  returncode : Int
  stdout : String
  stderr : String
  deriving Repr, DecidableEq

/-- The data carried by Python's `subprocess.CalledProcessError`. -/
structure CalledProcessError where
  returncode : Int
  cmd : String
  output : String
  stderr : String
  deriving Repr, DecidableEq

/-- Python's `subprocess.run(command, shell=True, check=check, ...)`:
raises `CalledProcessError` when `check` is set and the exit code is
non-zero, otherwise returns the completed process.  The process outcome
`r` is supplied by the environment. -/
def subprocess_run (command : String) (check : Bool) (r : CompletedProcess) :
    Except CalledProcessError CompletedProcess :=
  if check && r.returncode != 0 then
    .error ⟨r.returncode, command, r.stdout, r.stderr⟩
  else
    .ok r

/-- `run_command` from `platform/utils/command.py` (lines 10–16):
delegates directly to `subprocess.run(..., check=check, ...)`, with
`check` defaulting to true. -/
def run_command (command : String) (check : Bool := true)
    (r : CompletedProcess) : Except CalledProcessError CompletedProcess :=
  subprocess_run command check r

/-- `run_command` from `platform/deployment/utils/command.py` (lines 10–27):
calls `subprocess.run(..., check=False, ...)`, logs, and then raises
`CalledProcessError(returncode, command, output=stdout, stderr=stderr)`
itself when `check` is set and the exit code is non-zero. -/
def run_command_deployment (command : String) (check : Bool := true)
    (_stream_output : Bool := false) (r : CompletedProcess) :
    Except CalledProcessError CompletedProcess :=
  match subprocess_run command false r with
  | .error e => .error e
  | .ok result =>
    if check && result.returncode != 0 then
      .error ⟨result.returncode, command, result.stdout, result.stderr⟩
    else
      .ok result

/-! ## Parsed Kubernetes objects

The shapes the reconciler reads out of `kubectl ... -o json` output.  Only
the fields the Python code accesses are modelled. -/

/-- One entry of a pod's `status.conditions` list: the code reads
`condition.get("type")` and `condition.get("status")`. -/
structure PodCondition where
  ctype : String
  cstatus : String
  deriving Repr, DecidableEq

/-- One entry of a pod's `status.containerStatuses` list: the code reads
`container.get("ready", False)`. -/
structure ContainerStatus where
  ready : Bool
  deriving Repr, DecidableEq

/-- A pod as read from `kubectl get pods -o json`:
`metadata.name`, `metadata.creationTimestamp`, `status.phase`,
`status.conditions`, `status.containerStatuses` (`none` when the key is
absent from the status object), and the images of `spec.containers`. -/
structure Pod where
  name : String
  phase : String
  conditions : List PodCondition
  containerStatuses : Option (List ContainerStatus)
  creationTimestamp : String
  containerImages : List String
  deriving Repr, DecidableEq

/-- One entry of `status.loadBalancer.ingress` of a service: the code tests
`"hostname" in ingress[0]` / `"ip" in ingress[0]`, so each field is `none`
exactly when the key is absent. -/
structure IngressEntry where
  hostname : Option String
  ip : Option String
  deriving Repr, DecidableEq

/-- A service as read from `kubectl get service ... -o json`:
`spec.type` (`none` when absent) and `status.loadBalancer.ingress`
(empty list when any of the keys along the path is absent). -/
structure ServiceJson where
  stype : Option String
  ingress : List IngressEntry
  deriving Repr, DecidableEq

/-- The `servingEngineSpec.modelSpec[0]` object of `helm get values` output:
`modelURL`, `requestGPU`, `requestCPU`, `requestMemory`, each `none` when
the key is absent (the code reads them with `.get(key, default)`). -/
structure ModelSpec where
  modelURL : Option String
  requestGPU : Option Nat
  requestCPU : Option Nat
  requestMemory : Option String
  deriving Repr, DecidableEq

/-- The outcome of one external listing command followed by JSON decoding of
its stdout, as observed by the Python code:

* `fail code stderr` — non-zero exit code;
* `emptyOut` — exit code `0` but empty stdout (`json.loads("")` raises,
  and truthiness tests on `result.stdout` fail);
* `badJson msg` — exit code `0`, non-empty stdout that `json.loads`
  rejects (`msg` is the decode-error text);
* `ok v` — exit code `0` and stdout parsed to the value `v` of the
  expected shape. -/
inductive CmdOut (α : Type) : Type
  | fail (code : Int) (stderr : String)
  | emptyOut
  | badJson (msg : String)
  | ok (v : α)
  deriving Repr, DecidableEq

/-! ## `get_deployment_status`
(`platform/backend/app/services/deployment_init.py`, lines 96–317.) -/

/-- The environment of one `get_deployment_status` call: the outcome of each
subprocess it may invoke, in source order. -/
structure StatusEnv where
  /-- `kubectl get pods -n {ns} -l model --field-selector metadata.name=~{rel}-.* -o json` (line 100). -/
  model_pod_result : CmdOut (List Pod)
  /-- `kubectl get pods -n {ns} -o json` — the broad listing (line 112). -/
  pod_result : CmdOut (List Pod)
  /-- `kubectl get pods -n {ns} -l app=router --field-selector ... -o json` (line 154). -/
  router_pod_result : CmdOut (List Pod)
  /-- `helm get values -n {ns} {rel} -o json` (line 169); the parsed value is
  `some specs` when the JSON object has `servingEngineSpec.modelSpec`
  (a list), `none` when either key is absent. -/
  helm_result : CmdOut (Option (List ModelSpec))
  /-- `kubectl get service {rel}-router-service -n {ns} -o json` (line 263). -/
  service_result : CmdOut ServiceJson
  deriving Repr, DecidableEq

/-- The dictionary returned by `get_deployment_status`.  The function has two
return shapes: the full status dictionary (lines 291–306) and the error
dictionary `{name, namespace, status, model, error}` (lines 120–126 and
311–317); fields that the error dictionary omits are `none` / `[]` here,
and `error` is `some msg` exactly on the error shape. -/
structure StatusDict where
  name : String
  namespace_ : String
  status : String
  model : String
  error : Option String
  model_pod_status : Option String
  router_pod_status : Option String
  created_at : Option String
  gpu_count : Option Nat
  cpu_count : Option Nat
  memory : Option String
  image : Option String
  service_url : Option String
  public_url : Option String
  pod_status : List (String × String)
  deriving Repr, DecidableEq

/-- The error-shape return of `get_deployment_status`:
`{"name": rel, "namespace": ns, "status": "Error", "model": "unknown",
"error": msg}`. -/
def errorDict (ns rel msg : String) : StatusDict :=
  { name := rel, namespace_ := ns, status := "Error", model := "unknown",
    error := some msg, model_pod_status := none, router_pod_status := none,
    created_at := none, gpu_count := none, cpu_count := none, memory := none,
    image := none, service_url := none, public_url := none, pod_status := [] }

/-- The message of Python's `json.JSONDecodeError` on empty or invalid
input, as stringified by the catch-all handler (`str(e)`). -/
def jsonDecodeErrorMsg : String := "Expecting value: line 1 column 1 (char 0)"

/-- The collection of pods the rollup works on: the combined list
`vllm_pods`, the `model_pods` and the `router_pods` (lines 128–166). -/
structure PodGroups where
  vllm_pods : List Pod
  model_pods : List Pod
  router_pods : List Pod
  deriving Repr, DecidableEq

/-- The broad-path pod filter (lines 135–148): keep the pods whose name
starts with `release_name + "-"`; among those, a pod whose (lowered) name
contains `"router"` is a router pod, else one whose lowered name contains
`"vllm"` or `"deployment"` is a model pod. -/
def broadPodGroups (release_name : String) (pods : List Pod) : PodGroups :=
  let vllm := pods.filter fun p => strStartsWith p.name (release_name ++ "-")
  { vllm_pods := vllm
    router_pods := vllm.filter fun p => strContains (strLower p.name) "router"
    model_pods := vllm.filter fun p =>
      !strContains (strLower p.name) "router" &&
        (strContains (strLower p.name) "vllm" ||
          strContains (strLower p.name) "deployment") }

/-- Lines 99–166: determine `vllm_pods` / `model_pods` / `router_pods`.
`Except` carries the error-dictionary returns: the direct error return at
lines 120–126 and the returns produced by the catch-all `except` at lines
308–317 when `json.loads` raises. -/
def collectPods (ns release_name : String) (env : StatusEnv) :
    Except StatusDict PodGroups :=
  -- line 108: `model_pod_result.returncode != 0 or not json.loads(...).get("items")`
  match env.model_pod_result with
  | .fail _ _ =>
    -- broad path (lines 111–148)
    (match env.pod_result with
     | .fail _ stderr =>
       .error (errorDict ns release_name ("Failed to get pods: " ++ stderr))
     | .emptyOut => .error (errorDict ns release_name jsonDecodeErrorMsg)
     | .badJson msg => .error (errorDict ns release_name msg)
     | .ok pods => .ok (broadPodGroups release_name pods))
  | .emptyOut =>
    -- `json.loads("")` raises; caught by the outer handler (line 308)
    .error (errorDict ns release_name jsonDecodeErrorMsg)
  | .badJson msg => .error (errorDict ns release_name msg)
  | .ok items =>
    if items.isEmpty then
      -- `.get("items")` falsy: broad path again
      (match env.pod_result with
       | .fail _ stderr =>
         .error (errorDict ns release_name ("Failed to get pods: " ++ stderr))
       | .emptyOut => .error (errorDict ns release_name jsonDecodeErrorMsg)
       | .badJson msg => .error (errorDict ns release_name msg)
       | .ok pods => .ok (broadPodGroups release_name pods))
    else
      -- label path (lines 149–166): model pods from the first command,
      -- router pods from the `app=router` command (empty on non-zero exit).
      (match env.router_pod_result with
       | .fail _ _ => .ok ⟨items ++ [], items, []⟩
       | .emptyOut => .error (errorDict ns release_name jsonDecodeErrorMsg)
       | .badJson msg => .error (errorDict ns release_name msg)
       | .ok routers => .ok ⟨items ++ routers, items, routers⟩)

/-- Lines 168–194: read `model`, `gpu_count`, `cpu_count`, `memory` from the
Helm values.  `modelSpec[0]` on an empty list raises `IndexError`, which the
catch-all handler turns into the error dictionary. -/
def helmValues (ns release_name : String) (env : StatusEnv) :
    Except StatusDict (String × Nat × Nat × String) :=
  match env.helm_result with
  | .ok (some []) =>
    .error (errorDict ns release_name "list index out of range")
  | .ok (some (spec :: _)) =>
    .ok (spec.modelURL.getD "unknown", spec.requestGPU.getD 0,
      spec.requestCPU.getD 0, spec.requestMemory.getD "")
  | .ok none => .ok ("unknown", 0, 0, "")
  | .fail _ _ => .ok ("unknown", 0, 0, "")
  | .emptyOut => .ok ("unknown", 0, 0, "")
  | .badJson _ => .ok ("unknown", 0, 0, "")  -- `except json.JSONDecodeError: pass`

/-- Lines 207–217: the per-pod detailed status — the phase, suffixed with
`" (Not Ready)"` when some condition of type `"Ready"` has status other
than `"True"`. -/
def detailedStatus (p : Pod) : String :=
  if p.conditions.any (fun c => c.ctype == "Ready" && c.cstatus != "True") then
    p.phase ++ " (Not Ready)"
  else
    p.phase

/-- Lines 219–222: fold the earliest `creationTimestamp`
(`if not created_at or pod_created < created_at`). -/
def foldCreatedAt (pods : List Pod) : Option String :=
  pods.foldl
    (fun acc p =>
      match acc with
      | none => some p.creationTimestamp
      | some c => if p.creationTimestamp < c then some p.creationTimestamp else some c)
    none

/-- Lines 224–227: the image — overwritten by each pod whose lowered name
contains `"vllm"` or `"deployment"` and that has a non-empty container
list, starting from `"unknown"`. -/
def foldImage (pods : List Pod) : String :=
  pods.foldl
    (fun acc p =>
      if (strContains (strLower p.name) "vllm" ||
            strContains (strLower p.name) "deployment") then
        match p.containerImages with
        | [] => acc
        | img :: _ => img
      else acc)
    "unknown"

/-- Lines 230–244: the per-group status — `"Running"` when the group is
non-empty and every phase is `"Running"`, `"Pending"` when non-empty
otherwise, and the initial `"Unknown"` when the group is empty. -/
def groupStatus (pods : List Pod) : String :=
  if pods.isEmpty then "Unknown"
  else if pods.all (fun p => p.phase == "Running") then "Running"
  else "Pending"

/-- Lines 246–256: the combined rollup status from the two group
statuses. -/
def podRollup (g : PodGroups) : String :=
  let model_pod_status := groupStatus g.model_pods
  let router_pod_status := groupStatus g.router_pods
  if model_pod_status == "Running" && router_pod_status == "Running" then
    "Running"
  else if model_pod_status == "Running" then
    "Model Ready (Router Pending)"
  else if router_pod_status == "Running" then
    "Router Ready (Model Pending)"
  else if g.vllm_pods.isEmpty then
    "No Pods Found"
  else
    "Pending"

/-- Lines 258–289: `public_url` from the router service.  A JSON decode
failure is caught locally (`except json.JSONDecodeError`, line 288) and
leaves `public_url` at `None`; so does a non-zero exit code. -/
def servicePublicUrl (env : StatusEnv) : Option String :=
  match env.service_result with
  | .ok sj =>
    if sj.stype.getD "" == "LoadBalancer" then
      match sj.ingress with
      | [] => none
      | e :: _ =>
        match e.hostname with
        | some h => some ("http://" ++ h)
        | none =>
          match e.ip with
          | some ip => some ("http://" ++ ip)
          | none => none
    else none
  | _ => none

/-- `get_deployment_status(namespace, release_name)`
(`deployment_init.py`, lines 96–317), as a function of the subprocess
outcomes in `env`.  Total: every Python exception path is one of the
`errorDict` returns. -/
def get_deployment_status (ns release_name : String) (env : StatusEnv) :
    StatusDict :=
  match collectPods ns release_name env with
  | .error d => d
  | .ok groups =>
    match helmValues ns release_name env with
    | .error d => d
    | .ok (model, gpu_count, cpu_count, memory) =>
      { name := release_name
        namespace_ := ns
        status := podRollup groups
        model := model
        error := none
        model_pod_status := some (groupStatus groups.model_pods)
        router_pod_status := some (groupStatus groups.router_pods)
        created_at := foldCreatedAt groups.vllm_pods
        gpu_count := some gpu_count
        cpu_count := some cpu_count
        memory := some memory
        image := some (foldImage groups.vllm_pods)
        service_url := some (release_name ++ "-router-service." ++ ns ++ ".svc.cluster.local")
        public_url := servicePublicUrl env
        pod_status := groups.vllm_pods.map (fun p => (p.name, detailedStatus p)) }

/-! ## `get_enhanced_deployment_status`
(`platform/backend/app/services/deployment_init.py`, lines 320–581.) -/

/-- The outcome of the health-check `kubectl exec ... curl ...` call
(line 495, run with `timeout=5`), as observed by the code:

* `timeout` — `subprocess.run` raised `TimeoutExpired`;
* `noResponse` — the condition `returncode == 0 and stdout` failed
  (non-zero exit, or empty stdout);
* `badJson` — non-empty stdout that `json.loads` rejects;
* `ok data` — parsed JSON body; `data` is the `"data"` list, `none` when
  the key is absent. -/
inductive HealthOut : Type
  | timeout
  | noResponse
  | badJson
  | ok (data : Option (List String))
  deriving Repr, DecidableEq

/-- The outcome of the `kubectl logs ... --tail=50` call (line 559):
exit code and stdout are all the code reads. -/
inductive LogsOut : Type
  | fail
  | ok (stdout : String)
  deriving Repr, DecidableEq

/-- The environment of one `get_enhanced_deployment_status` call: the
outcome of each subprocess it may invoke beyond the inner
`get_deployment_status` call, in source order. -/
structure EnhEnv where
  /-- the inner `get_deployment_status` call's environment (line 326). -/
  statusEnv : StatusEnv
  /-- `kubectl get pods -n {ns} -o json` for the all-ready check (line 335). -/
  pods_result : CmdOut (List Pod)
  /-- `kubectl get service {rel}-router-service -n {ns} -o json` (line 344):
  only the parse of its stdout matters (`json.loads` runs regardless of the
  exit code); `none` when `json.loads` raises, which the handler at line 391
  absorbs. -/
  service_json : Option ServiceJson
  /-- `kubectl get pods -n {ns} -l app.kubernetes.io/instance={rel} -o json`
  (line 460), used to locate a running router pod. -/
  find_pods_result : CmdOut (List Pod)
  /-- the health-check exec (line 495). -/
  health_result : HealthOut
  /-- `kubectl get pods -n {ns} -o json` (line 524), used to locate a model
  pod for the log fallback. -/
  log_find_result : CmdOut (List Pod)
  /-- the `kubectl logs` call (line 559). -/
  logs_result : LogsOut
  deriving Repr, DecidableEq

/-- Lines 410–427: the two-flag loop over the deployment's pods.  Breaking
out of the outer loop on the first non-`Running` pod, the fold returns
`(all_running, all_ready)`; `all_ready` is cleared by a pod whose
`containerStatuses` key is absent or that has a non-ready container, and is
only accumulated for pods up to the first non-running one. -/
def podsReadyLoop : List Pod → Bool → Bool × Bool
  | [], ready_acc => (true, ready_acc)
  | p :: rest, ready_acc =>
    if p.phase != "Running" then (false, ready_acc)
    else
      podsReadyLoop rest
        (ready_acc &&
          (match p.containerStatuses with
           | some cs => cs.all (fun c => c.ready)
           | none => false))

/-- Lines 396–432: `all_pods_ready` — requires a successful, non-empty,
well-parsed broad pod listing, at least one pod whose name contains the
release name as a substring, and the loop above to leave both flags set.
A JSON decode failure is absorbed by the handler at line 431. -/
def all_pods_ready_check (release_name : String)
    (pods_result : CmdOut (List Pod)) : Bool :=
  match pods_result with
  | .ok pods =>
    let deployment_pods := pods.filter fun p => strContains p.name release_name
    if deployment_pods.isEmpty then false
    else
      let flags := podsReadyLoop deployment_pods true
      flags.1 && flags.2
  | _ => false

/-- Lines 471–494: the first pod of the instance-labelled listing whose
lowered name contains `"router"` and whose phase is `"Running"`; a decode
failure (line 484) leaves it `None`. -/
def findRouterPod (find_pods_result : CmdOut (List Pod)) : Option String :=
  match find_pods_result with
  | .ok pods =>
    (pods.find? fun p =>
        strContains (strLower p.name) "router" && p.phase == "Running").map
      (fun p => p.name)
  | _ => none

/-- Lines 487–494: the health-check command string — exec into the found
router pod, else into the conventional `deploy/{rel}-deployment-router`. -/
def healthCmd (ns release_name : String) (router_pod : Option String) : String :=
  match router_pod with
  | some p =>
    "kubectl exec -n " ++ ns ++ " " ++ p ++
      " -- curl -s http://localhost:8000/v1/models"
  | none =>
    "kubectl exec -n " ++ ns ++ " deploy/" ++ release_name ++
      "-deployment-router -- curl -s http://localhost:8000/v1/models"

/-- Lines 531–549: the first pod of the broad listing whose name contains
the release name, whose lowered name contains `"vllm"` or `"engine"`, and
whose lowered name does not contain `"router"`. -/
def findModelPod (release_name : String)
    (log_find_result : CmdOut (List Pod)) : Option String :=
  match log_find_result with
  | .ok pods =>
    (pods.find? fun p =>
        strContains p.name release_name &&
          (strContains (strLower p.name) "vllm" ||
            strContains (strLower p.name) "engine") &&
          !strContains (strLower p.name) "router").map (fun p => p.name)
  | _ => none

/-- `str(subprocess.TimeoutExpired(cmd, 5))`. -/
def timeoutExpiredStr (cmd : String) : String :=
  "Command '" ++ cmd ++ "' timed out after 5 seconds"

/-- The LLM-readiness verdict written into the status dictionary by lines
328–581, together with a trace of which collaborators were invoked.
`probe_called` records whether the health-check exec (line 495) ran;
`logs_called` records whether the `kubectl logs` call (line 559) ran. -/
structure Verdict where
  llm_ready : Bool
  llm_status : String
  ui_status : String
  available_models : Option (List String)
  probe_called : Bool
  logs_called : Bool
  deriving Repr, DecidableEq

/-- Lines 328–581 minus the service/external-IP block: compute
`llm_ready`, `llm_status`, `ui_status` and `available_models` from the base
status string and the environment.  The defaults (lines 329–331) are
`llm_ready=False`, `llm_status="Initializing"`, `ui_status="pending"`; they
survive when no branch overwrites them.  The only exception the `try` of
lines 457–576 can see is the health-check timeout, which the handler at
line 576 turns into the `"Status Check Error: ..."` verdict. -/
def llm_classify (ns release_name : String) (base_status : String)
    (env : EnhEnv) : Verdict :=
  if all_pods_ready_check release_name env.pods_result then
    -- lines 434–439: fast path
    { llm_ready := true, llm_status := "Ready", ui_status := "active",
      available_models := none, probe_called := false, logs_called := false }
  else if base_status != "Running" then
    -- lines 441–452: early exit on a non-running rollup
    if strContains base_status "Error" ||
        strContains (strLower base_status) "failed" then
      { llm_ready := false, llm_status := "Failed", ui_status := "failed",
        available_models := none, probe_called := false, logs_called := false }
    else
      { llm_ready := false, llm_status := "Starting", ui_status := "pending",
        available_models := none, probe_called := false, logs_called := false }
  else
    -- lines 457–579: probe, then log fallback
    let router_pod := findRouterPod env.find_pods_result
    let cmd := healthCmd ns release_name router_pod
    match env.health_result with
    | .timeout =>
      -- `TimeoutExpired` propagates to the handler at line 576
      { llm_ready := false,
        llm_status := "Status Check Error: " ++ timeoutExpiredStr cmd,
        ui_status := "pending", available_models := none,
        probe_called := true, logs_called := false }
    | .ok data =>
      (match data with
       | some (m :: ms) =>
         -- lines 507–511: at least one model entry
         { llm_ready := true, llm_status := "Ready", ui_status := "active",
           available_models := some (m :: ms), probe_called := true,
           logs_called := false }
       | _ =>
         -- lines 512–515: service up, no models loaded
         { llm_ready := false, llm_status := "Loading Model",
           ui_status := "pending", available_models := none,
           probe_called := true, logs_called := false })
    | .badJson =>
      -- lines 516–519
      { llm_ready := false, llm_status := "API Error", ui_status := "pending",
        available_models := none, probe_called := true, logs_called := false }
    | .noResponse =>
      -- lines 520–575: log-based inference fallback
      let _model_pod := findModelPod release_name env.log_find_result
      (match env.logs_result with
       | .fail =>
         -- `logs_result.returncode != 0`: nothing overwrites the defaults
         { llm_ready := false, llm_status := "Initializing",
           ui_status := "pending", available_models := none,
           probe_called := true, logs_called := true }
       | .ok stdout =>
         let log_content := strLower stdout
         if strContains log_content "model loaded successfully" then
           { llm_ready := false, llm_status := "Model Loaded, Service Starting",
             ui_status := "pending", available_models := none,
             probe_called := true, logs_called := true }
         else if strContains log_content "loading model" ||
             strContains log_content "downloading" then
           { llm_ready := false, llm_status := "Downloading/Loading Model",
             ui_status := "pending", available_models := none,
             probe_called := true, logs_called := true }
         else
           { llm_ready := false, llm_status := "Starting",
             ui_status := "pending", available_models := none,
             probe_called := true, logs_called := true })

/-- Lines 340–394: the external-IP block.  The outer value is `none` when
the `json.loads` at line 357 raised (the `except` at line 391 absorbs it and
the `external_ip` key is never written); otherwise `some v` where `v` is
the ingress hostname, else ingress IP, else `None`. -/
def externalIpField (env : EnhEnv) : Option (Option String) :=
  match env.service_json with
  | none => none
  | some sj =>
    if sj.stype == some "LoadBalancer" then
      match sj.ingress with
      | [] => some none
      | e :: _ =>
        (match e.hostname with
         | some h => some (some h)
         | none =>
           match e.ip with
           | some ip => some (some ip)
           | none => some none)
    else some none

/-- The dictionary returned by `get_enhanced_deployment_status`: the base
dictionary plus the keys the function adds (`llm_ready`, `llm_status`,
`ui_status`, possibly `external_ip` and `available_models`), and the
invocation trace used to state the no-probe properties. -/
structure EnhancedStatus where
  base : StatusDict
  llm_ready : Bool
  llm_status : String
  ui_status : String
  external_ip : Option (Option String)
  available_models : Option (List String)
  probe_called : Bool
  logs_called : Bool
  deriving Repr, DecidableEq

/-- `get_enhanced_deployment_status(namespace, release_name)`
(`deployment_init.py`, lines 320–581), as a function of the subprocess
outcomes in `env`.  Total: every return path of the Python function is a
value of this function, and no exception escapes to the caller. -/
def get_enhanced_deployment_status (ns release_name : String) (env : EnhEnv) :
    EnhancedStatus :=
  let base := get_deployment_status ns release_name env.statusEnv
  let v := llm_classify ns release_name base.status env
  { base := base
    llm_ready := v.llm_ready
    llm_status := v.llm_status
    ui_status := v.ui_status
    external_ip := externalIpField env
    available_models := v.available_models
    probe_called := v.probe_called
    logs_called := v.logs_called }

/-! ## Deployment identity
(`platform/backend/app/services/deployment_service.py` lines 194–197 and
519–526, `deployment_init.py` lines 53–56, `main.py` lines 859–863.)

`uuid.uuid5(uuid.NAMESPACE_DNS, key)` is Python standard-library code, not
repository code: it is a deterministic pure function of `key` (a SHA-1-based
name hash), so it is taken here as an arbitrary function parameter
`uuid5 : String → String`.  `uuid.uuid4()` is a UUID built from 16 fresh
random bytes; it is embedded as the externally supplied random draw
itself. -/

/-- The key string hashed into the deployment id:
`f"{namespace}:{release_name}"` (`deployment_service.py` line 196,
`deployment_init.py` line 55). -/
def unique_key (ns release_name : String) : String :=
  ns ++ ":" ++ release_name

/-- `create_deployment` (`deployment_service.py` lines 194–197):
`deployment_id = str(uuid.uuid5(uuid.NAMESPACE_DNS, unique_key))`. -/
def create_deployment_id (uuid5 : String → String) (ns release_name : String) :
    String :=
  uuid5 (unique_key ns release_name)

/-- `initialize_deployments` (`deployment_init.py` lines 53–56): the helm
discovery path derives the id with the same hash over the same key. -/
def init_discovery_id (uuid5 : String → String) (ns release_name : String) :
    String :=
  uuid5 (unique_key ns release_name)

/-- `create_deployment` in `main.py` (lines 859–863): the key is
`f"{release_name}:{release_name}"` and the namespace is set to the release
name. -/
def main_create_deployment_id (uuid5 : String → String)
    (release_name : String) : String :=
  uuid5 (unique_key release_name release_name)

/-- One `active_deployments` entry as observed by `get_deployment_by_name`:
the id it is stored under, plus its `namespace` and `release_name` fields. -/
structure RegistryEntry where
  id : String
  namespace_ : String
  release_name : String
  deriving Repr, DecidableEq

/-- `get_deployment_by_name` (`deployment_service.py` lines 508–542), as far
as the id is concerned: scan `active_deployments` for an entry whose
`namespace` and `release_name` match and reuse its id; otherwise register
the deployment under `deployment_id = str(uuid.uuid4())` (line 525) —
`fresh_uuid4` is the random draw of that call. -/
def get_deployment_by_name_id (registry : List RegistryEntry)
    (ns name : String) (fresh_uuid4 : String) : String :=
  match registry.find? (fun e => e.namespace_ == ns && e.release_name == name) with
  | some e => e.id
  | none => fresh_uuid4

/-- `active_deployments[deployment_id] = {...}`: a Python dict assignment,
embedded as a pointwise map update. -/
def registryPut (m : String → Option String) (id entry : String) :
    String → Option String :=
  fun k => if k = id then some entry else m k

/-! ## Spec-side rollup definition and concrete fixtures -/

/-- The pod rollup as the spec's §4.4 step 1 bullet list reads, amended so
that the `Running` / `Model Ready` / `Router Ready` cases require the
respective pod group to be non-empty (the code's group status stays
`"Unknown"` on an empty group, so an all-running verdict needs at least one
pod of that group).  This definition follows the spec's words and is
compared with `podRollup`, which is translated from the code. -/
def specPodRollup (g : PodGroups) : String :=
  let modelOk := !g.model_pods.isEmpty &&
    g.model_pods.all (fun p => p.phase == "Running")
  let routerOk := !g.router_pods.isEmpty &&
    g.router_pods.all (fun p => p.phase == "Running")
  if g.vllm_pods.isEmpty then "No Pods Found"
  else if modelOk && routerOk then "Running"
  else if modelOk then "Model Ready (Router Pending)"
  else if routerOk then "Router Ready (Model Pending)"
  else "Pending"

/-- The spec's failure test for a non-running rollup: the status text
contains `"error"` or `"failed"` under case-insensitive matching.  This
definition follows the spec's words and is compared with the code's test
(`"Error" in status or "failed" in status.lower()`, lines 443–446). -/
def specFailureText (s : String) : Bool :=
  strContains (strLower s) "error" || strContains (strLower s) "failed"

/-- A model pod of release `demo`: running, single ready container. -/
def podModel : Pod :=
  { name := "demo-vllm-abc", phase := "Running", conditions := [],
    containerStatuses := some [⟨true⟩],
    creationTimestamp := "2024-01-01T00:00:00Z", containerImages := ["vllm/vllm-openai:latest"] }

/-- A router pod of release `demo`: running, single ready container. -/
def podRouter : Pod :=
  { name := "demo-router-xyz", phase := "Running", conditions := [],
    containerStatuses := some [⟨true⟩],
    creationTimestamp := "2024-01-02T00:00:00Z", containerImages := [] }

/-- A running pod of release `demo` whose name carries neither a router nor
a model marker. -/
def podPlain : Pod :=
  { name := "demo-app", phase := "Running", conditions := [],
    containerStatuses := some [⟨true⟩],
    creationTimestamp := "2024-01-03T00:00:00Z", containerImages := [] }

/-- A pod whose name contains `demo` as a substring but does not start with
`demo-`. -/
def podOutside : Pod :=
  { name := "x-demo-y", phase := "Running", conditions := [],
    containerStatuses := some [⟨true⟩],
    creationTimestamp := "2024-01-04T00:00:00Z", containerImages := [] }

/-- A running pod of release `demo` whose status object has no
`containerStatuses` key. -/
def podNoCS : Pod :=
  { name := "demo-vllm-abc", phase := "Running", conditions := [],
    containerStatuses := none,
    creationTimestamp := "2024-01-01T00:00:00Z", containerImages := [] }

/-- A status environment where the label-selector listing fails and the
broad listing returns no pods; every other command fails. -/
def envNoPods : StatusEnv :=
  { model_pod_result := .fail 1 "error: field selector not supported",
    pod_result := .ok [],
    router_pod_result := .fail 1 "", helm_result := .fail 1 "",
    service_result := .fail 1 "" }

/-- A status environment whose broad listing returns one model and one
router pod of release `demo`, both running. -/
def envGreen : StatusEnv :=
  { envNoPods with pod_result := .ok [podModel, podRouter] }

/-- A status environment whose broad pod listing exits non-zero. -/
def envListFail : StatusEnv :=
  { envNoPods with pod_result := .fail 1 "connection refused" }

/-- A status environment whose broad listing returns one running pod that no
role heuristic classifies. -/
def envUnclassified : StatusEnv :=
  { envNoPods with pod_result := .ok [podPlain] }

/-- A status environment whose broad listing returns only `x-demo-y`. -/
def envOutside : StatusEnv :=
  { envNoPods with pod_result := .ok [podOutside] }

/-- An enhanced environment with no pods anywhere: the all-ready listing
parses to an empty list, the probe gets no response, the log fetch fails. -/
def enhNoPods : EnhEnv :=
  { statusEnv := envNoPods, pods_result := .ok [], service_json := none,
    find_pods_result := .fail 1 "", health_result := .noResponse,
    log_find_result := .fail 1 "", logs_result := .fail }

/-- An enhanced environment where both pods of release `demo` are running
and ready everywhere. -/
def enhGreen : EnhEnv :=
  { enhNoPods with
    statusEnv := envGreen,
    pods_result := .ok [podModel, podRouter] }

/-- An enhanced environment where the rollup is `Running` but the fast path
cannot fire (the pod seen by the all-ready listing has no
`containerStatuses`), and the health probe times out. -/
def enhTimeout : EnhEnv :=
  { enhNoPods with
    statusEnv := envGreen,
    pods_result := .ok [podNoCS],
    health_result := .timeout }

/-- As `enhTimeout`, but the probe merely gets no response and the log fetch
returns a model-loading line. -/
def enhProbeFail : EnhEnv :=
  { enhTimeout with
    health_result := .noResponse,
    logs_result := .ok "INFO: Loading model weights from disk" }

/-- An enhanced environment around `envListFail`. -/
def enhListFail : EnhEnv :=
  { enhNoPods with statusEnv := envListFail }

/-- An enhanced environment around `envUnclassified`. -/
def enhUnclassified : EnhEnv :=
  { enhNoPods with
    statusEnv := envUnclassified,
    pods_result := .ok [podPlain] }

/-! # Theorems -/

theorem isPrefixOfL_append_left (a b s : List Char)
    (h : isPrefixOfL (a ++ b) s = true) : isPrefixOfL a s = true := by
  induction a generalizing s with
  | nil => rfl
  | cons x xs ih =>
    cases s with
    | nil => simp [isPrefixOfL] at h
    | cons y ys =>
      simp only [List.cons_append, isPrefixOfL, Bool.and_eq_true,
        decide_eq_true_eq] at h ⊢
      exact ⟨h.1, ih ys h.2⟩

theorem isPrefixOfL_contains (a s : List Char) (h : isPrefixOfL a s = true) :
    containsL a s = true := by
  cases s with
  | nil => simpa [containsL] using h
  | cons c rest => simp [containsL, h]

theorem strStartsWith_strContains (name rel : String)
    (h : strStartsWith name (rel ++ "-") = true) :
    strContains name rel = true := by
  unfold strStartsWith at h
  unfold strContains
  rw [String.data_append] at h
  exact isPrefixOfL_contains _ _ (isPrefixOfL_append_left _ _ _ h)

theorem statusCheckError_ne (s t : String) (ht : t.length < 20) :
    "Status Check Error: " ++ s ≠ t := by
  intro h
  have h2 := congrArg String.length h
  rw [String.length_append] at h2
  have h3 : ("Status Check Error: ").length = 20 := rfl
  omega

theorem collectPods_error {ns rel : String} {env : StatusEnv} {d : StatusDict}
    (h : collectPods ns rel env = .error d) : ∃ msg, d = errorDict ns rel msg := by
  unfold collectPods at h
  split at h
  · split at h
    · exact ⟨_, (Except.error.inj h).symm⟩
    · exact ⟨_, (Except.error.inj h).symm⟩
    · exact ⟨_, (Except.error.inj h).symm⟩
    · exact absurd h (by simp)
  · exact ⟨_, (Except.error.inj h).symm⟩
  · exact ⟨_, (Except.error.inj h).symm⟩
  · split at h
    · split at h
      · exact ⟨_, (Except.error.inj h).symm⟩
      · exact ⟨_, (Except.error.inj h).symm⟩
      · exact ⟨_, (Except.error.inj h).symm⟩
      · exact absurd h (by simp)
    · split at h
      · exact absurd h (by simp)
      · exact ⟨_, (Except.error.inj h).symm⟩
      · exact ⟨_, (Except.error.inj h).symm⟩
      · exact absurd h (by simp)

theorem helmValues_error {ns rel : String} {env : StatusEnv} {d : StatusDict}
    (h : helmValues ns rel env = .error d) : ∃ msg, d = errorDict ns rel msg := by
  unfold helmValues at h
  split at h
  · exact ⟨_, (Except.error.inj h).symm⟩
  · exact absurd h (by simp)
  · exact absurd h (by simp)
  · exact absurd h (by simp)
  · exact absurd h (by simp)
  · exact absurd h (by simp)

theorem podRollup_mem (g : PodGroups) :
    podRollup g ∈ ["Running", "Model Ready (Router Pending)",
      "Router Ready (Model Pending)", "No Pods Found", "Pending"] := by
  unfold podRollup
  by_cases h1 : (groupStatus g.model_pods == "Running") = true <;>
    by_cases h2 : (groupStatus g.router_pods == "Running") = true <;>
      by_cases h3 : g.vllm_pods.isEmpty = true <;>
        simp [h1, h2, h3]

/-- Every status string `get_deployment_status` can return. -/
theorem status_mem (ns rel : String) (env : StatusEnv) :
    (get_deployment_status ns rel env).status ∈ ["Error", "Running",
      "Model Ready (Router Pending)", "Router Ready (Model Pending)",
      "No Pods Found", "Pending"] := by
  unfold get_deployment_status
  cases hc : collectPods ns rel env with
  | error d =>
    obtain ⟨msg, rfl⟩ := collectPods_error hc
    simp [errorDict]
  | ok groups =>
    cases hh : helmValues ns rel env with
    | error d =>
      obtain ⟨msg, rfl⟩ := helmValues_error hh
      simp [errorDict]
    | ok v =>
      obtain ⟨model, gpu, cpu, mem⟩ := v
      have := podRollup_mem groups
      simp only [List.mem_cons, List.mem_singleton] at this ⊢
      tauto

/-- The verdict computed by lines 328–581 keeps `ui_status` consistent with
`llm_status` on every branch. -/
theorem llm_classify_consistent (ns rel s : String) (env : EnhEnv) :
    ((llm_classify ns rel s env).ui_status = "active" ↔
      (llm_classify ns rel s env).llm_status = "Ready") ∧
    ((llm_classify ns rel s env).ui_status = "failed" ↔
      (llm_classify ns rel s env).llm_status = "Failed") ∧
    ((llm_classify ns rel s env).ui_status = "active" ∨
      (llm_classify ns rel s env).ui_status = "failed" ∨
      (llm_classify ns rel s env).ui_status = "pending") := by
  simp only [llm_classify]
  split
  · decide
  · split
    · split
      · decide
      · decide
    · split
      · -- health check timed out: "Status Check Error: ..."
        refine ⟨?_, ?_, Or.inr (Or.inr rfl)⟩
        · constructor
          · intro h; simp at h
          · intro h; exact absurd h (statusCheckError_ne _ _ (by decide))
        · constructor
          · intro h; simp at h
          · intro h; exact absurd h (statusCheckError_ne _ _ (by decide))
      · split
        · exact ⟨by simp, by simp, by simp⟩
        · decide
      · decide
      · split
        · decide
        · split
          · decide
          · split
            · decide
            · decide

/-- C1: for every `DeploymentStatus` computed by
`get_enhanced_deployment_status`, on every return path, `ui_status` equals
`"active"` iff `llm_status` equals `"Ready"`, equals `"failed"` iff
`llm_status` equals `"Failed"`, and equals `"pending"` in every other
case. -/
theorem uiStatus_consistency (ns rel : String) (env : EnhEnv) :
    ((get_enhanced_deployment_status ns rel env).ui_status = "active" ↔
      (get_enhanced_deployment_status ns rel env).llm_status = "Ready") ∧
    ((get_enhanced_deployment_status ns rel env).ui_status = "failed" ↔
      (get_enhanced_deployment_status ns rel env).llm_status = "Failed") ∧
    ((get_enhanced_deployment_status ns rel env).ui_status = "active" ∨
      (get_enhanced_deployment_status ns rel env).ui_status = "failed" ∨
      (get_enhanced_deployment_status ns rel env).ui_status = "pending") :=
  llm_classify_consistent ns rel
    (get_deployment_status ns rel env.statusEnv).status env

/-- Witness for C1 at a concrete all-green environment. -/
theorem uiStatus_consistency_witness :
    ((get_enhanced_deployment_status "ns1" "demo" enhGreen).ui_status = "active" ↔
      (get_enhanced_deployment_status "ns1" "demo" enhGreen).llm_status = "Ready") ∧
    ((get_enhanced_deployment_status "ns1" "demo" enhGreen).ui_status = "failed" ↔
      (get_enhanced_deployment_status "ns1" "demo" enhGreen).llm_status = "Failed") ∧
    ((get_enhanced_deployment_status "ns1" "demo" enhGreen).ui_status = "active" ∨
      (get_enhanced_deployment_status "ns1" "demo" enhGreen).ui_status = "failed" ∨
      (get_enhanced_deployment_status "ns1" "demo" enhGreen).ui_status = "pending") :=
  uiStatus_consistency "ns1" "demo" enhGreen

/-- C2 counterexample: the lookup-by-name registration path
(`get_deployment_by_name`, `deployment_service.py` line 525) assigns a fresh
random UUIDv4, so resolving the same `(namespace, releaseName)` pair twice
against an empty registry — as happens after a restart whose helm discovery
did not re-register the release — yields two different ids. -/
theorem byName_id_not_deterministic :
    get_deployment_by_name_id [] "ns1" "demo"
        "11111111-1111-4111-8111-111111111111" ≠
      get_deployment_by_name_id [] "ns1" "demo"
        "22222222-2222-4222-8222-222222222222" := by
  decide

/-- C2 amended: the creation path and the helm-discovery path both derive
the id as `uuid5` of the key `"{namespace}:{release_name}"`, hence they are
deterministic and agree with each other for every pair; the lookup-by-name
path only reuses an id when a registry entry with that `(namespace, name)`
pair already exists — when the registry lacks the pair it registers the
fresh random UUIDv4 draw instead. -/
theorem resolve_id_determinism (uuid5 : String → String) (ns rel : String)
    (registry : List RegistryEntry) (e : RegistryEntry) (u : String)
    (hfind : registry.find?
        (fun x => x.namespace_ == ns && x.release_name == rel) = some e) :
    create_deployment_id uuid5 ns rel = init_discovery_id uuid5 ns rel ∧
    get_deployment_by_name_id registry ns rel u = e.id ∧
    (∀ registry2 : List RegistryEntry,
      registry2.find? (fun x => x.namespace_ == ns && x.release_name == rel) = none →
      get_deployment_by_name_id registry2 ns rel u = u) := by
  refine ⟨rfl, ?_, ?_⟩
  · unfold get_deployment_by_name_id
    rw [hfind]
  · intro registry2 h2
    unfold get_deployment_by_name_id
    rw [h2]

/-- Witness for the amended C2 at a concrete registry. -/
theorem resolve_id_determinism_witness :
    create_deployment_id (fun s => s) "ns1" "demo" =
        init_discovery_id (fun s => s) "ns1" "demo" ∧
    get_deployment_by_name_id [⟨"id0", "ns1", "demo"⟩] "ns1" "demo" "u1" = "id0" ∧
    (∀ registry2 : List RegistryEntry,
      registry2.find?
          (fun x => x.namespace_ == "ns1" && x.release_name == "demo") = none →
      get_deployment_by_name_id registry2 "ns1" "demo" "u1" = "u1") :=
  resolve_id_determinism (fun s => s) "ns1" "demo"
    [⟨"id0", "ns1", "demo"⟩] ⟨"id0", "ns1", "demo"⟩ "u1" (by decide)

/-- C10: the deployment id is derived from the single concatenated string
`"{namespace}:{release_name}"`, so identity resolution is not injective over
pairs: namespace `"a"` with release `"b:c"` and namespace `"a:b"` with
release `"c"` yield the identical id, and registering both deployments in
the id-keyed registry leaves a single shared entry. -/
theorem deployment_id_not_injective (uuid5 : String → String) :
    (("a", "b:c") : String × String) ≠ ("a:b", "c") ∧
    create_deployment_id uuid5 "a" "b:c" = create_deployment_id uuid5 "a:b" "c" ∧
    (∀ entry1 entry2 : String,
      registryPut (registryPut (fun _ => none)
          (create_deployment_id uuid5 "a" "b:c") entry1)
        (create_deployment_id uuid5 "a:b" "c") entry2
        (create_deployment_id uuid5 "a" "b:c") = some entry2) := by
  have hkey : unique_key "a" "b:c" = unique_key "a:b" "c" := by decide
  have hid : create_deployment_id uuid5 "a" "b:c" =
      create_deployment_id uuid5 "a:b" "c" := congrArg uuid5 hkey
  refine ⟨by decide, hid, ?_⟩
  intro entry1 entry2
  unfold registryPut
  rw [hid, if_pos rfl]

/-- Witness for C10 with the identity function as the hash. -/
theorem deployment_id_not_injective_witness :
    (("a", "b:c") : String × String) ≠ ("a:b", "c") ∧
    create_deployment_id (fun s => s) "a" "b:c" =
        create_deployment_id (fun s => s) "a:b" "c" ∧
    (∀ entry1 entry2 : String,
      registryPut (registryPut (fun _ => none)
          (create_deployment_id (fun s => s) "a" "b:c") entry1)
        (create_deployment_id (fun s => s) "a:b" "c") entry2
        (create_deployment_id (fun s => s) "a" "b:c") = some entry2) :=
  deployment_id_not_injective (fun s => s)

/-- C4 counterexample: with the default `check=True`, both `run_command`
implementations raise `CalledProcessError` on a non-zero exit code instead
of returning a structured result; neither takes a timeout or reports a
timed-out flag. -/
theorem run_command_raises_on_nonzero_exit :
    run_command "kubectl get pods" true ⟨1, "", "connection refused"⟩ =
      .error ⟨1, "kubectl get pods", "", "connection refused"⟩ ∧
    run_command_deployment "kubectl get pods" true false
        ⟨1, "", "connection refused"⟩ =
      .error ⟨1, "kubectl get pods", "", "connection refused"⟩ := by
  constructor <;> rfl

/-- C4 amended: `run_command` (in both files, which agree extensionally)
returns the structured `CompletedProcess` when `check` is false or the exit
code is zero, and raises `CalledProcessError` when `check` is true and the
exit code is non-zero; it accepts no timeout and reports no timed-out
flag. -/
theorem run_command_characterization (command : String) (check : Bool)
    (r : CompletedProcess) :
    run_command command check r = run_command_deployment command check false r ∧
    (check = false → run_command command check r = .ok r) ∧
    (r.returncode = 0 → run_command command check r = .ok r) ∧
    (check = true → r.returncode ≠ 0 →
      run_command command check r =
        .error ⟨r.returncode, command, r.stdout, r.stderr⟩) := by
  unfold run_command run_command_deployment subprocess_run
  refine ⟨?_, ?_, ?_, ?_⟩
  · cases check <;> simp
  · intro hc; simp [hc]
  · intro hr; simp [hr]
  · intro hc hr; simp [hc, hr]

/-- Witness for the amended C4: a non-zero exit raises with `check=True`
and returns the result with `check=False`. -/
theorem run_command_characterization_witness :
    run_command "helm list" true ⟨2, "out", "err"⟩ =
      .error ⟨2, "helm list", "out", "err"⟩ ∧
    run_command "helm list" false ⟨2, "out", "err"⟩ = .ok ⟨2, "out", "err"⟩ :=
  ⟨(run_command_characterization "helm list" true ⟨2, "out", "err"⟩).2.2.2
      rfl (by decide),
    (run_command_characterization "helm list" false ⟨2, "out", "err"⟩).2.1 rfl⟩

/-- C6 counterexample: when the broad pod listing exits non-zero,
`get_deployment_status` returns `status="Error"` (with the stderr message),
not the `"No Pods Found"` rollup. -/
theorem listPods_failure_not_noPodsFound :
    (get_deployment_status "ns1" "demo" envListFail).status = "Error" ∧
    (get_deployment_status "ns1" "demo" envListFail).status ≠ "No Pods Found" ∧
    (get_deployment_status "ns1" "demo" envListFail).error =
      some "Failed to get pods: connection refused" := by
  refine ⟨rfl, by decide, rfl⟩

/-- C6 amended: if the pod-listing queries fail (non-zero exit code),
`get_enhanced_deployment_status` still returns a status record — no
exception propagates (the embedded function is total) — but its status
field is the error shape `"Error"` carrying the listing's stderr, not
`"No Pods Found"`. -/
theorem listPods_failure_degrades (ns rel : String) (env : EnhEnv)
    (code1 code2 : Int) (stderr1 stderr2 : String)
    (hm : env.statusEnv.model_pod_result = CmdOut.fail code1 stderr1)
    (hp : env.statusEnv.pod_result = CmdOut.fail code2 stderr2) :
    (get_enhanced_deployment_status ns rel env).base.status = "Error" ∧
    (get_enhanced_deployment_status ns rel env).base.error =
      some ("Failed to get pods: " ++ stderr2) ∧
    (get_enhanced_deployment_status ns rel env).base.status ≠ "No Pods Found" := by
  have hbase : get_deployment_status ns rel env.statusEnv =
      errorDict ns rel ("Failed to get pods: " ++ stderr2) := by
    unfold get_deployment_status collectPods
    rw [hm, hp]
  have hb2 : (get_enhanced_deployment_status ns rel env).base =
      errorDict ns rel ("Failed to get pods: " ++ stderr2) := by
    unfold get_enhanced_deployment_status
    rw [hbase]
  rw [hb2]
  exact ⟨rfl, rfl, by simp [errorDict]⟩

/-- Witness for the amended C6 at a concrete failing environment. -/
theorem listPods_failure_degrades_witness :
    (get_enhanced_deployment_status "ns1" "demo" enhListFail).base.status = "Error" ∧
    (get_enhanced_deployment_status "ns1" "demo" enhListFail).base.error =
      some ("Failed to get pods: " ++ "connection refused") ∧
    (get_enhanced_deployment_status "ns1" "demo" enhListFail).base.status ≠
      "No Pods Found" :=
  listPods_failure_degrades "ns1" "demo" enhListFail 1 1
    "error: field selector not supported" "connection refused" rfl rfl

theorem podsReadyLoop_all (l : List Pod)
    (h : ∀ p ∈ l, p.phase = "Running" ∧
      ∃ cs, p.containerStatuses = some cs ∧ ∀ c ∈ cs, c.ready = true) :
    podsReadyLoop l true = (true, true) := by
  induction l with
  | nil => rfl
  | cons p rest ih =>
    obtain ⟨hph, cs, hcs, hready⟩ := h p (List.mem_cons_self p rest)
    have hall : cs.all (fun c => c.ready) = true :=
      List.all_eq_true.mpr (fun c hc => hready c hc)
    unfold podsReadyLoop
    rw [hph, hcs]
    simp only [bne_self_eq_false, Bool.false_eq_true, if_false, hall,
      Bool.and_true]
    exact ih (fun q hq => h q (List.mem_cons_of_mem p hq))

theorem all_pods_ready_check_holds (rel : String) (pods : List Pod)
    (hne : pods.filter (fun p => strContains p.name rel) ≠ [])
    (hall : ∀ p ∈ pods.filter (fun p => strContains p.name rel),
      p.phase = "Running" ∧
      ∃ cs, p.containerStatuses = some cs ∧ ∀ c ∈ cs, c.ready = true) :
    all_pods_ready_check rel (CmdOut.ok pods) = true := by
  unfold all_pods_ready_check
  have hie : (pods.filter (fun p => strContains p.name rel)).isEmpty = false := by
    simpa [List.isEmpty_eq_false] using hne
  simp only [hie, Bool.false_eq_true, if_false,
    podsReadyLoop_all _ hall, Bool.and_self]

/-- C3 counterexample: with an empty pod listing the claim's hypothesis —
every matched pod running, every container-level ready flag true — holds
vacuously, yet `get_enhanced_deployment_status` does not take the fast
path: the verdict is `Starting`/`pending`, not `Ready`/`active`. -/
theorem fastpath_vacuous_counterexample :
    enhNoPods.pods_result = CmdOut.ok ([] : List Pod) ∧
    (∀ p ∈ ([] : List Pod), p.phase = "Running" ∧
      ∀ cs, p.containerStatuses = some cs → ∀ c ∈ cs, c.ready = true) ∧
    (get_enhanced_deployment_status "ns1" "demo" enhNoPods).llm_status =
      "Starting" ∧
    (get_enhanced_deployment_status "ns1" "demo" enhNoPods).llm_status ≠
      "Ready" ∧
    (get_enhanced_deployment_status "ns1" "demo" enhNoPods).ui_status ≠
      "active" :=
  ⟨rfl, by simp, by decide, by decide, by decide⟩

/-- C3 amended: if the all-ready listing succeeds, at least one pod's name
contains the release name, and every such pod reports phase `Running` and a
`containerStatuses` list whose every ready flag is true, then
`get_enhanced_deployment_status` returns `Ready`/`active` immediately,
invoking neither the health probe nor the log fetch. -/
theorem fastpath_short_circuit (ns rel : String) (env : EnhEnv)
    (pods : List Pod)
    (hp : env.pods_result = CmdOut.ok pods)
    (hne : pods.filter (fun p => strContains p.name rel) ≠ [])
    (hall : ∀ p ∈ pods.filter (fun p => strContains p.name rel),
      p.phase = "Running" ∧
      ∃ cs, p.containerStatuses = some cs ∧ ∀ c ∈ cs, c.ready = true) :
    (get_enhanced_deployment_status ns rel env).llm_ready = true ∧
    (get_enhanced_deployment_status ns rel env).llm_status = "Ready" ∧
    (get_enhanced_deployment_status ns rel env).ui_status = "active" ∧
    (get_enhanced_deployment_status ns rel env).probe_called = false ∧
    (get_enhanced_deployment_status ns rel env).logs_called = false := by
  have hready : all_pods_ready_check rel env.pods_result = true := by
    rw [hp]; exact all_pods_ready_check_holds rel pods hne hall
  have hcl : llm_classify ns rel
      (get_deployment_status ns rel env.statusEnv).status env =
      ⟨true, "Ready", "active", none, false, false⟩ := by
    unfold llm_classify
    rw [hready]
    simp
  have h1 : (get_enhanced_deployment_status ns rel env).llm_ready =
      (llm_classify ns rel
        (get_deployment_status ns rel env.statusEnv).status env).llm_ready := rfl
  have h2 : (get_enhanced_deployment_status ns rel env).llm_status =
      (llm_classify ns rel
        (get_deployment_status ns rel env.statusEnv).status env).llm_status := rfl
  have h3 : (get_enhanced_deployment_status ns rel env).ui_status =
      (llm_classify ns rel
        (get_deployment_status ns rel env.statusEnv).status env).ui_status := rfl
  have h4 : (get_enhanced_deployment_status ns rel env).probe_called =
      (llm_classify ns rel
        (get_deployment_status ns rel env.statusEnv).status env).probe_called := rfl
  have h5 : (get_enhanced_deployment_status ns rel env).logs_called =
      (llm_classify ns rel
        (get_deployment_status ns rel env.statusEnv).status env).logs_called := rfl
  rw [h1, h2, h3, h4, h5, hcl]
  exact ⟨rfl, rfl, rfl, rfl, rfl⟩

/-- Witness for the amended C3 at the all-green environment. -/
theorem fastpath_short_circuit_witness :
    (get_enhanced_deployment_status "ns1" "demo" enhGreen).llm_ready = true ∧
    (get_enhanced_deployment_status "ns1" "demo" enhGreen).llm_status = "Ready" ∧
    (get_enhanced_deployment_status "ns1" "demo" enhGreen).ui_status = "active" ∧
    (get_enhanced_deployment_status "ns1" "demo" enhGreen).probe_called = false ∧
    (get_enhanced_deployment_status "ns1" "demo" enhGreen).logs_called = false :=
  fastpath_short_circuit "ns1" "demo" enhGreen [podModel, podRouter] rfl
    (by decide)
    (by
      intro p hp
      fin_cases hp
      · exact ⟨rfl, [⟨true⟩], rfl, by decide⟩
      · exact ⟨rfl, [⟨true⟩], rfl, by decide⟩)

/-- C5 counterexample: when the health probe times out, the raised
`TimeoutExpired` is caught by the generic handler — the verdict becomes
`"Status Check Error: ..."`/`pending` and the log-based fallback is *not*
invoked, contrary to the claim that a timeout falls through to the log
inference. -/
theorem probe_timeout_no_log_fallback :
    enhTimeout.health_result = HealthOut.timeout ∧
    (get_enhanced_deployment_status "ns1" "demo" enhTimeout).probe_called = true ∧
    (get_enhanced_deployment_status "ns1" "demo" enhTimeout).logs_called = false ∧
    (get_enhanced_deployment_status "ns1" "demo" enhTimeout).llm_status =
      "Status Check Error: Command 'kubectl exec -n ns1 deploy/demo-deployment-router -- curl -s http://localhost:8000/v1/models' timed out after 5 seconds" ∧
    (get_enhanced_deployment_status "ns1" "demo" enhTimeout).ui_status =
      "pending" :=
  ⟨rfl, by decide, by decide, by decide, by decide⟩

/-- C5 amended: when the probe is reached (rollup `Running`, fast path not
fired), a probe that returns non-zero exit or empty output falls through to
the log-based inference fallback, while a probe timeout is caught locally
and yields `"Status Check Error: ..."`/`pending` without the log fallback;
in both cases no exception is surfaced to the caller (the embedded function
is total). -/
theorem probe_failure_handling (ns rel : String) (env : EnhEnv)
    (hfast : all_pods_ready_check rel env.pods_result = false)
    (hrun : (get_deployment_status ns rel env.statusEnv).status = "Running") :
    (env.health_result = HealthOut.noResponse →
      (get_enhanced_deployment_status ns rel env).probe_called = true ∧
      (get_enhanced_deployment_status ns rel env).logs_called = true ∧
      (get_enhanced_deployment_status ns rel env).ui_status = "pending") ∧
    (env.health_result = HealthOut.timeout →
      (get_enhanced_deployment_status ns rel env).probe_called = true ∧
      (get_enhanced_deployment_status ns rel env).logs_called = false ∧
      (get_enhanced_deployment_status ns rel env).llm_status =
        "Status Check Error: " ++
          timeoutExpiredStr (healthCmd ns rel (findRouterPod env.find_pods_result)) ∧
      (get_enhanced_deployment_status ns rel env).ui_status = "pending") := by
  have hpc : (get_enhanced_deployment_status ns rel env).probe_called =
      (llm_classify ns rel
        (get_deployment_status ns rel env.statusEnv).status env).probe_called := rfl
  have hlc : (get_enhanced_deployment_status ns rel env).logs_called =
      (llm_classify ns rel
        (get_deployment_status ns rel env.statusEnv).status env).logs_called := rfl
  have hls : (get_enhanced_deployment_status ns rel env).llm_status =
      (llm_classify ns rel
        (get_deployment_status ns rel env.statusEnv).status env).llm_status := rfl
  have hus : (get_enhanced_deployment_status ns rel env).ui_status =
      (llm_classify ns rel
        (get_deployment_status ns rel env.statusEnv).status env).ui_status := rfl
  constructor
  · intro hh
    rw [hpc, hlc, hus]
    unfold llm_classify
    rw [hfast, hrun, hh]
    cases hlr : env.logs_result with
    | fail => simp
    | ok stdout =>
      by_cases h1 : strContains (strLower stdout) "model loaded successfully" = true
      · simp [h1]
      · by_cases h2 : (strContains (strLower stdout) "loading model" ||
            strContains (strLower stdout) "downloading") = true
        · simp [h1, h2]
        · simp [h1, h2]
  · intro hh
    rw [hpc, hlc, hls, hus]
    unfold llm_classify
    rw [hfast, hrun, hh]
    simp

/-- Witness for the amended C5: the no-response case falls to the log
fallback, the timeout case does not. -/
theorem probe_failure_handling_witness :
    ((get_enhanced_deployment_status "ns1" "demo" enhProbeFail).probe_called = true ∧
      (get_enhanced_deployment_status "ns1" "demo" enhProbeFail).logs_called = true ∧
      (get_enhanced_deployment_status "ns1" "demo" enhProbeFail).ui_status = "pending") ∧
    ((get_enhanced_deployment_status "ns1" "demo" enhTimeout).probe_called = true ∧
      (get_enhanced_deployment_status "ns1" "demo" enhTimeout).logs_called = false ∧
      (get_enhanced_deployment_status "ns1" "demo" enhTimeout).llm_status =
        "Status Check Error: " ++
          timeoutExpiredStr (healthCmd "ns1" "demo"
            (findRouterPod enhTimeout.find_pods_result)) ∧
      (get_enhanced_deployment_status "ns1" "demo" enhTimeout).ui_status = "pending") :=
  ⟨(probe_failure_handling "ns1" "demo" enhProbeFail (by decide) (by decide)).1 rfl,
    (probe_failure_handling "ns1" "demo" enhTimeout (by decide) (by decide)).2 rfl⟩

theorem groupStatus_running_iff (pods : List Pod) :
    (groupStatus pods == "Running") =
      (!pods.isEmpty && pods.all (fun p => p.phase == "Running")) := by
  unfold groupStatus
  split_ifs with h1 h2 <;> simp_all

theorem podRollup_eq_spec (g : PodGroups)
    (hm : g.vllm_pods = [] → g.model_pods = [])
    (hr : g.vllm_pods = [] → g.router_pods = []) :
    podRollup g = specPodRollup g := by
  unfold podRollup specPodRollup
  cases hv : g.vllm_pods with
  | nil =>
    rw [hm hv, hr hv]
    simp [groupStatus]
  | cons p ps =>
    simp only [groupStatus_running_iff, List.isEmpty_cons, Bool.false_eq_true,
      if_false]

/-- The broad listing path of `get_deployment_status`: when the
label-selector listing fails, the broad listing parses to `pods`, and the
Helm values are not the empty `modelSpec` list, the returned record's
rollup and pod-status map come from `broadPodGroups`. -/
theorem get_deployment_status_broad (ns rel : String) (env : StatusEnv)
    (pods : List Pod) (code : Int) (serr : String)
    (hm : env.model_pod_result = CmdOut.fail code serr)
    (hp : env.pod_result = CmdOut.ok pods)
    (hh : env.helm_result ≠ CmdOut.ok (some [])) :
    (get_deployment_status ns rel env).status =
      podRollup (broadPodGroups rel pods) ∧
    (get_deployment_status ns rel env).pod_status =
      (broadPodGroups rel pods).vllm_pods.map
        (fun p => (p.name, detailedStatus p)) := by
  have hc : collectPods ns rel env = .ok (broadPodGroups rel pods) := by
    unfold collectPods
    rw [hm, hp]
  obtain ⟨model, gpu, cpu, mem, hv⟩ :
      ∃ model gpu cpu mem, helmValues ns rel env = .ok (model, gpu, cpu, mem) := by
    unfold helmValues
    cases hhr : env.helm_result with
    | fail c s => exact ⟨_, _, _, _, rfl⟩
    | emptyOut => exact ⟨_, _, _, _, rfl⟩
    | badJson m => exact ⟨_, _, _, _, rfl⟩
    | ok v =>
      cases v with
      | none => exact ⟨_, _, _, _, rfl⟩
      | some specs =>
        cases specs with
        | nil => exact absurd hhr hh
        | cons s rest => exact ⟨_, _, _, _, rfl⟩
  unfold get_deployment_status
  rw [hc, hv]
  exact ⟨rfl, rfl⟩

/-- C7 counterexample: for release `demo` and the single running pod
`demo-app`, the filtered set is non-empty and every model pod and every
router pod has phase `Running` (both classified groups are empty), yet the
rollup is `"Pending"`, not `"Running"`. -/
theorem rollup_vacuous_running_counterexample :
    (broadPodGroups "demo" [podPlain]).vllm_pods ≠ [] ∧
    (broadPodGroups "demo" [podPlain]).model_pods.all
        (fun p => p.phase == "Running") = true ∧
    (broadPodGroups "demo" [podPlain]).router_pods.all
        (fun p => p.phase == "Running") = true ∧
    (get_deployment_status "ns1" "demo" envUnclassified).status = "Pending" ∧
    (get_deployment_status "ns1" "demo" envUnclassified).status ≠ "Running" := by
  refine ⟨by decide, by decide, by decide, by decide, by decide⟩

/-- C7 amended: the rollup is `NoPodsFound` exactly when the filtered set is
empty; `Running` when there is at least one Model pod and at least one
Router pod and all of both are running; `ModelReady_RouterPending` when the
Model group is non-empty and all running but the Router group is not
(symmetrically `RouterReady_ModelPending`); and `Pending` otherwise — i.e.
the code rollup coincides with the spec's ordered case list once the
all-running cases additionally require their group non-empty.  The second
conjunct ties the rollup to the full `get_deployment_status` record on the
broad listing path. -/
theorem podRollup_matches_spec (rel : String) (pods : List Pod) :
    podRollup (broadPodGroups rel pods) = specPodRollup (broadPodGroups rel pods) ∧
    (∀ (ns : String) (env : StatusEnv) (code : Int) (serr : String),
      env.model_pod_result = CmdOut.fail code serr →
      env.pod_result = CmdOut.ok pods →
      env.helm_result ≠ CmdOut.ok (some []) →
      (get_deployment_status ns rel env).status =
        specPodRollup (broadPodGroups rel pods)) := by
  have heq : podRollup (broadPodGroups rel pods) =
      specPodRollup (broadPodGroups rel pods) := by
    apply podRollup_eq_spec
    · intro h
      simp only [broadPodGroups] at h ⊢
      rw [h]
      rfl
    · intro h
      simp only [broadPodGroups] at h ⊢
      rw [h]
      rfl
  refine ⟨heq, ?_⟩
  intro ns env code serr hm hp hh
  rw [(get_deployment_status_broad ns rel env pods code serr hm hp hh).1, heq]

/-- Witness for the amended C7 on a mixed pod list. -/
theorem podRollup_matches_spec_witness :
    podRollup (broadPodGroups "demo" [podModel, podRouter, podPlain]) =
      specPodRollup (broadPodGroups "demo" [podModel, podRouter, podPlain]) ∧
    (∀ (ns : String) (env : StatusEnv) (code : Int) (serr : String),
      env.model_pod_result = CmdOut.fail code serr →
      env.pod_result = CmdOut.ok [podModel, podRouter, podPlain] →
      env.helm_result ≠ CmdOut.ok (some []) →
      (get_deployment_status ns "demo" env).status =
        specPodRollup (broadPodGroups "demo" [podModel, podRouter, podPlain])) :=
  podRollup_matches_spec "demo" [podModel, podRouter, podPlain]

theorem llm_classify_nonrunning (ns rel s : String) (env : EnhEnv)
    (hfast : all_pods_ready_check rel env.pods_result = false)
    (hnr : s ≠ "Running") :
    llm_classify ns rel s env =
      if (strContains s "Error" || strContains (strLower s) "failed") = true then
        ⟨false, "Failed", "failed", none, false, false⟩
      else ⟨false, "Starting", "pending", none, false, false⟩ := by
  unfold llm_classify
  simp [hfast, hnr]

/-- C8: when the rollup status is not `Running` and the fast path did not
fire, the verdict is `Failed`/`failed` when the rollup text contains
`"error"` or `"failed"` under case-insensitive matching (`specFailureText`
— extensionally equivalent, on every status the code can produce, to the
code's case-sensitive `"Error"`-substring test), else
`Starting`/`pending`; the function returns without attempting the HTTP
probe or the log fetch. -/
theorem nonrunning_failure_classification (ns rel : String) (env : EnhEnv)
    (hfast : all_pods_ready_check rel env.pods_result = false)
    (hnr : (get_deployment_status ns rel env.statusEnv).status ≠ "Running") :
    (specFailureText ((get_deployment_status ns rel env.statusEnv).status) = true →
      (get_enhanced_deployment_status ns rel env).llm_status = "Failed" ∧
      (get_enhanced_deployment_status ns rel env).ui_status = "failed") ∧
    (specFailureText ((get_deployment_status ns rel env.statusEnv).status) = false →
      (get_enhanced_deployment_status ns rel env).llm_status = "Starting" ∧
      (get_enhanced_deployment_status ns rel env).ui_status = "pending") ∧
    (get_enhanced_deployment_status ns rel env).probe_called = false ∧
    (get_enhanced_deployment_status ns rel env).logs_called = false := by
  have hmem := status_mem ns rel env.statusEnv
  have hcl := llm_classify_nonrunning ns rel
    ((get_deployment_status ns rel env.statusEnv).status) env hfast hnr
  have hls : (get_enhanced_deployment_status ns rel env).llm_status =
      (llm_classify ns rel
        (get_deployment_status ns rel env.statusEnv).status env).llm_status := rfl
  have hus : (get_enhanced_deployment_status ns rel env).ui_status =
      (llm_classify ns rel
        (get_deployment_status ns rel env.statusEnv).status env).ui_status := rfl
  have hpc : (get_enhanced_deployment_status ns rel env).probe_called =
      (llm_classify ns rel
        (get_deployment_status ns rel env.statusEnv).status env).probe_called := rfl
  have hlc : (get_enhanced_deployment_status ns rel env).logs_called =
      (llm_classify ns rel
        (get_deployment_status ns rel env.statusEnv).status env).logs_called := rfl
  rw [hls, hus, hpc, hlc, hcl]
  simp only [List.mem_cons, List.not_mem_nil, or_false] at hmem
  rcases hmem with h | h | h | h | h | h
  · rw [h]; decide
  · exact absurd h hnr
  · rw [h]; decide
  · rw [h]; decide
  · rw [h]; decide
  · rw [h]; decide

/-- Witness for C8 at the failing-listing environment, whose rollup is
`"Error"`. -/
theorem nonrunning_failure_classification_witness :
    (specFailureText ((get_deployment_status "ns1" "demo"
        enhListFail.statusEnv).status) = true →
      (get_enhanced_deployment_status "ns1" "demo" enhListFail).llm_status = "Failed" ∧
      (get_enhanced_deployment_status "ns1" "demo" enhListFail).ui_status = "failed") ∧
    (specFailureText ((get_deployment_status "ns1" "demo"
        enhListFail.statusEnv).status) = false →
      (get_enhanced_deployment_status "ns1" "demo" enhListFail).llm_status = "Starting" ∧
      (get_enhanced_deployment_status "ns1" "demo" enhListFail).ui_status = "pending") ∧
    (get_enhanced_deployment_status "ns1" "demo" enhListFail).probe_called = false ∧
    (get_enhanced_deployment_status "ns1" "demo" enhListFail).logs_called = false :=
  nonrunning_failure_classification "ns1" "demo" enhListFail (by decide) (by decide)

/-- C9 counterexample: the pod `x-demo-y` contains release `demo` as a
substring, yet the rollup membership test of `get_deployment_status` does
not count it — the pod-status map is empty and the rollup is
`"No Pods Found"`.  The substring test belongs to the fast-path readiness
check of `get_enhanced_deployment_status`, not to the rollup. -/
theorem rollup_membership_not_substring :
    strContains "x-demo-y" "demo" = true ∧
    strStartsWith "x-demo-y" ("demo" ++ "-") = false ∧
    (get_deployment_status "ns1" "demo" envOutside).pod_status = [] ∧
    (get_deployment_status "ns1" "demo" envOutside).status = "No Pods Found" := by
  refine ⟨by decide, by decide, by decide, by decide⟩

/-- C9 amended: on the broad listing path the rollup membership test keeps
exactly the pods whose name *starts with* `releaseName + "-"` — a strictly
stronger test than the spec's substring match: every selected pod name does
contain the release name as a substring, but a name like `x-demo-y` that
contains it without the prefix is excluded.  (The loose substring test is
used by the fast-path readiness check, `all_pods_ready_check`.) -/
theorem rollup_membership_prefix (ns rel : String) (env : StatusEnv)
    (pods : List Pod) (code : Int) (serr : String)
    (hm : env.model_pod_result = CmdOut.fail code serr)
    (hp : env.pod_result = CmdOut.ok pods)
    (hh : env.helm_result ≠ CmdOut.ok (some [])) :
    ((get_deployment_status ns rel env).pod_status.map Prod.fst =
      (pods.filter (fun p => strStartsWith p.name (rel ++ "-"))).map Pod.name) ∧
    (∀ p ∈ pods, strStartsWith p.name (rel ++ "-") = true →
      strContains p.name rel = true) := by
  constructor
  · rw [(get_deployment_status_broad ns rel env pods code serr hm hp hh).2]
    simp only [broadPodGroups, List.map_map]
    rfl
  · intro p _ hpre
    exact strStartsWith_strContains p.name rel hpre

/-- Witness for the amended C9 at the `x-demo-y` environment. -/
theorem rollup_membership_prefix_witness :
    ((get_deployment_status "ns1" "demo" envOutside).pod_status.map Prod.fst =
      (List.filter (fun p => strStartsWith p.name ("demo" ++ "-"))
        [podOutside]).map Pod.name) ∧
    (∀ p ∈ [podOutside], strStartsWith p.name ("demo" ++ "-") = true →
      strContains p.name "demo" = true) :=
  rollup_membership_prefix "ns1" "demo" envOutside [podOutside] 1
    "error: field selector not supported" rfl rfl (by decide)

end VllmPlatform
